import Mathlib

/-!
Shallow embedding of the DoseWise detection-to-adherence pipeline from
src/App.jsx: the schedule policy (checkPillValidity), the detection gate
(runPrediction / selectBest), the adherence ledger (processSuccess,
calculateStreak), the reminder sweep (checkReminders), the alert
transitions of handleDetection, and the persistence layer (loadLocalData,
generateMockAdherence, clearData).

Wall-clock reads (new Date()) are passed in explicitly as the current
hour, minute, ISO date string and formatted time string.  Classifier
probabilities (JS floats in [0,1]) are embedded as rationals; the literal
0.75 becomes mkRat 3 4.  localStorage is embedded as the Store structure
holding the two keys the program uses.  JSON.stringify/parse round-trips
are embedded as the identity on the structured document.
-/

/-- JS truthiness of a `null | string` value: null and the empty string are
falsy, every other string is truthy.  Mirrors checks such as
`existingEntry[type].taken` in App.jsx. -/
def jsTruthy : Option String → Bool
  | none => false
  | some s => !s.isEmpty

/-- JS String.prototype.toLowerCase on the ASCII labels used here. -/
def lowerStr (s : String) : String := ⟨s.data.map Char.toLower⟩

/-- Whether the first char list is an initial segment of the second. -/
def hasPre : List Char → List Char → Bool
  | [], _ => true
  | _ :: _, [] => false
  | p :: ps, c :: cs => p == c && hasPre ps cs

/-- Whether the first char list occurs contiguously inside the second. -/
def hasSub : List Char → List Char → Bool
  | pat, [] => pat.isEmpty
  | pat, c :: cs => hasPre pat (c :: cs) || hasSub pat cs

/-- JS String.prototype.includes: `containsStr s pat` is true when `pat`
occurs as a substring of `s`. -/
def containsStr (s pat : String) : Bool := hasSub pat.data s.data

/-- Strict lexicographic order on char lists; on ISO yyyy-mm-dd date
strings this coincides with the chronological order that the source
comparator `new Date(b.date) - new Date(a.date)` uses. -/
def charListLt : List Char → List Char → Bool
  | [], [] => false
  | [], _ :: _ => true
  | _ :: _, [] => false
  | a :: as, b :: bs => if a < b then true else if b < a then false else charListLt as bs

/-- JS String.prototype.replace(/_/g, ' '). -/
def replaceUnderscores (s : String) : String :=
  ⟨s.data.map (fun c => if c = '_' then ' ' else c)⟩

/-- The two dose slots of a day (PILL_TYPES keys MORNING / EVENING). -/
inductive DoseType
  | morning
  | evening
deriving DecidableEq

/-- One dose slot of a DayLog entry: `{scheduled, taken, pillType}`.
`taken` is null or a formatted local time string. -/
structure DoseRecord where
  scheduled : String
  taken : Option String
  pillType : String
deriving DecidableEq

/-- One adherenceLog entry: `{date, morning, evening}` keyed by ISO date. -/
structure DayLog where
  date : String
  morning : DoseRecord
  evening : DoseRecord
deriving DecidableEq

/-- The stats state: `{currentStreak, totalPillsTaken, totalPillsScheduled}`. -/
structure AdherenceStats where
  currentStreak : Nat
  totalPillsTaken : Nat
  totalPillsScheduled : Nat
deriving DecidableEq

/-- The JSON document persisted under the dosewise_data key. -/
structure SavedDoc where
  adherenceLog : List DayLog
  currentStreak : Nat
  totalPillsTaken : Nat
  totalPillsScheduled : Nat
deriving DecidableEq

/-- The localStorage keys the program uses: dosewise_data (adherence/stats
document) and dosewise_model_url (classifier configuration URL). -/
structure Store where
  dosewiseData : Option SavedDoc
  dosewiseModelUrl : Option String
deriving DecidableEq

/-- Alert kinds used by setAlert ({type: 'info' | 'success' | 'warning'}). -/
inductive AlertKind
  | info
  | success
  | warning
deriving DecidableEq

/-- A transient alert; the JS field named `type` is called `kind` here
because `type` is reserved in Lean. -/
structure Alert where
  kind : AlertKind
  message : String
deriving DecidableEq

/-- One classifier output pair `{className, probability}`. -/
structure Prediction where
  className : String
  probability : ℚ
deriving DecidableEq

/-- The session state touched by the core pipeline: the displayed
prediction, the current alert, the adherence ledger, the cached stats and
the persisted store. -/
structure AppState where
  prediction : Prediction
  alert : Option Alert
  adherenceLog : List DayLog
  stats : AdherenceStats
  store : Store
deriving DecidableEq

/-- Outcome of processing one detection, per the control-flow paths of
handleDetection / processSuccess. -/
inductive RecordOutcome
  | accepted
  | alreadyTaken
  | notScheduled
  | ignored
deriving DecidableEq

/-- CONFIDENCE_THRESHOLD = 0.75. -/
def CONFIDENCE_THRESHOLD : ℚ := mkRat 3 4

/-- Result shape of checkPillValidity `{isValid, type}`; the JS field
`type` is called `ty` here. -/
structure PillValidity where
  isValid : Bool
  ty : Option DoseType
deriving DecidableEq

/-- checkPillValidity from App.jsx: morning window is hours [7,9], evening
window is hours [19,21], both inclusive; labels other than pill_morning
and pill_evening yield `{isValid := false, ty := none}`. -/
def checkPillValidity (detectedPill : String) (currentHour : Nat) : PillValidity :=
  let isMorningWindow : Bool := decide (7 ≤ currentHour) && decide (currentHour ≤ 9)
  let isEveningWindow : Bool := decide (19 ≤ currentHour) && decide (currentHour ≤ 21)
  if detectedPill = "pill_morning" then { isValid := isMorningWindow, ty := some DoseType.morning }
  else if detectedPill = "pill_evening" then { isValid := isEveningWindow, ty := some DoseType.evening }
  else { isValid := false, ty := none }

/-- The slot of a DayLog selected by a DoseType (JS `log[type]`). -/
def slotOf (d : DayLog) : DoseType → DoseRecord
  | DoseType.morning => d.morning
  | DoseType.evening => d.evening

/-- JS `newLog[dayIdx][type].taken = takenTime`. -/
def setSlotTaken (d : DayLog) (ty : DoseType) (t : String) : DayLog :=
  match ty with
  | DoseType.morning => { d with morning := { d.morning with taken := some t } }
  | DoseType.evening => { d with evening := { d.evening with taken := some t } }

/-- The fresh DayLog pushed by processSuccess when no entry exists for
today; note the source writes `pillType := pillName` into both slots. -/
def newDay (today : String) (ty : DoseType) (pillName takenTime : String) : DayLog :=
  { date := today,
    morning := { scheduled := "08:00",
                 taken := if ty = DoseType.morning then some takenTime else none,
                 pillType := pillName },
    evening := { scheduled := "20:00",
                 taken := if ty = DoseType.evening then some takenTime else none,
                 pillType := pillName } }

/-- In-place update of the first entry matching `today`, mirroring the
findIndex-then-mutate sequence of processSuccess. -/
def updateFirstDate : List DayLog → String → (DayLog → DayLog) → List DayLog
  | [], _, _ => []
  | l :: rest, today, f =>
      if l.date = today then f l :: rest else l :: updateFirstDate rest today f

/-- Insert a DayLog into a list sorted by date descending. -/
def insertDesc (d : DayLog) : List DayLog → List DayLog
  | [] => [d]
  | e :: rest => if charListLt e.date.data d.date.data then d :: e :: rest else e :: insertDesc d rest

/-- The `[...logs].sort((a, b) => new Date(b.date) - new Date(a.date))`
step of calculateStreak: sort by date descending. -/
def sortByDateDesc (logs : List DayLog) : List DayLog := logs.foldr insertDesc []

/-- The per-day condition of the streak walk:
`day.morning?.taken || day.evening?.taken` under JS truthiness. -/
def dayTaken (d : DayLog) : Bool := jsTruthy d.morning.taken || jsTruthy d.evening.taken

/-- The for-loop of calculateStreak: count days from the front, stopping
at the first day with neither slot taken. -/
def streakLoop : List DayLog → Nat
  | [] => 0
  | d :: rest => if dayTaken d then streakLoop rest + 1 else 0

/-- calculateStreak from App.jsx. -/
def calculateStreak (logs : List DayLog) : Nat := streakLoop (sortByDateDesc logs)

/-- Message of the info alert set at the start of handleDetection. -/
def infoMsg (label : String) : String :=
  "🔍 Identification: " ++ replaceUnderscores label ++ " detected."

/-- Message of the warning alert set on a not-scheduled pill detection. -/
def warnMsg (label : String) : String :=
  "⚠️ " ++ replaceUnderscores label ++ " is not scheduled for now."

/-- Message of the success alert set by processSuccess. -/
def successMsg (pillName : String) : String :=
  "✅ " ++ replaceUnderscores pillName ++ " Taken!"

/-- The accepted-dose tail of processSuccess: set the success alert, store
the new log, bump totalPillsTaken, recompute currentStreak, and persist
the full ledger + stats snapshot under dosewise_data. -/
def commitDose (s : AppState) (pillName : String) (newLog : List DayLog) : AppState :=
  let newStats : AdherenceStats :=
    { currentStreak := calculateStreak newLog,
      totalPillsTaken := s.stats.totalPillsTaken + 1,
      totalPillsScheduled := s.stats.totalPillsScheduled }
  { s with
    alert := some { kind := AlertKind.success, message := successMsg pillName },
    adherenceLog := newLog,
    stats := newStats,
    store := { s.store with
      dosewiseData := some
        { adherenceLog := newLog,
          currentStreak := newStats.currentStreak,
          totalPillsTaken := newStats.totalPillsTaken,
          totalPillsScheduled := newStats.totalPillsScheduled } } }

/-- processSuccess from App.jsx: early-return when today already has a
truthy taken value in the slot; otherwise update the existing entry (or
push a fresh one) and commit. -/
def processSuccess (s : AppState) (pillName : String) (ty : DoseType)
    (today takenTime : String) : RecordOutcome × AppState :=
  match s.adherenceLog.find? (fun l => l.date == today) with
  | some e =>
      if jsTruthy (slotOf e ty).taken then (RecordOutcome.alreadyTaken, s)
      else
        (RecordOutcome.accepted,
         commitDose s pillName
           (updateFirstDate s.adherenceLog today (fun d => setSlotTaken d ty takenTime)))
  | none =>
      (RecordOutcome.accepted,
       commitDose s pillName (s.adherenceLog ++ [newDay today ty pillName takenTime]))

/-- handleDetection from App.jsx: ignore the non-pill labels, set the info
alert, consult checkPillValidity, and either record the dose or (for a
pill-like label) set the warning alert.  The `confidence` argument is kept
from the source signature though the body never reads it. -/
def handleDetection (s : AppState) (label : String) (_confidence : ℚ) (currentHour : Nat)
    (today takenTime : String) : RecordOutcome × AppState :=
  if label = "no_pill" ∨ label = "multiple_pills" ∨ label = "Background Join" then
    (RecordOutcome.ignored, s)
  else
    let s1 : AppState := { s with alert := some { kind := AlertKind.info, message := infoMsg label } }
    let v := checkPillValidity label currentHour
    if v.isValid then
      match v.ty with
      | some ty => processSuccess s1 label ty today takenTime
      | none => (RecordOutcome.ignored, s1)
    else
      if containsStr (lowerStr label) "pill" || containsStr (lowerStr label) "med" then
        (RecordOutcome.notScheduled,
         { s1 with alert := some { kind := AlertKind.warning, message := warnMsg label } })
      else
        (RecordOutcome.notScheduled, s1)

/-- The sentinel bestMatch `{className: 'no_pill', probability: 0}` that
runPrediction starts its maximum scan from. -/
def defaultBest : Prediction := { className := "no_pill", probability := 0 }

/-- The forEach maximum scan of runPrediction: replace the running best
only on a strictly greater probability. -/
def selectBest (init : Prediction) (preds : List Prediction) : Prediction :=
  preds.foldl (fun best p => if best.probability < p.probability then p else best) init

/-- runPrediction from App.jsx, given the classifier output of one tick:
pick the best prediction, show it, and forward it to handleDetection only
when its confidence strictly exceeds CONFIDENCE_THRESHOLD. -/
def runPrediction (s : AppState) (preds : List Prediction) (currentHour : Nat)
    (today takenTime : String) : AppState :=
  let best := selectBest defaultBest preds
  let s1 : AppState := { s with prediction := best }
  if CONFIDENCE_THRESHOLD < best.probability then
    (handleDetection s1 best.className best.probability currentHour today takenTime).2
  else s1

/-- checkReminders from App.jsx: at exactly 8:15 fire the morning reminder
when today has no entry or an untaken morning slot, and at exactly 20:15
likewise for the evening slot.  The returned list holds the DoseTypes for
which a notification is sent. -/
def checkReminders (logs : List DayLog) (today : String)
    (currentHour currentMinute : Nat) : List DoseType :=
  let log := logs.find? (fun l => l.date == today)
  let slotUntaken : DoseType → Bool := fun ty =>
    match log with
    | none => true
    | some l => !(jsTruthy (slotOf l ty).taken)
  (if currentHour = 8 ∧ currentMinute = 15 ∧ slotUntaken DoseType.morning = true
     then [DoseType.morning] else []) ++
  (if currentHour = 20 ∧ currentMinute = 15 ∧ slotUntaken DoseType.evening = true
     then [DoseType.evening] else [])

/-- One entry of the demo history: mocked for offset `i` days back, with
the morning dose skipped when 3 divides `i` and the evening dose skipped
when 4 divides `i`.  The `dateOf` argument supplies the ISO date string of
the day `i` days before today. -/
def mockDay (dateOf : Nat → String) (i : Nat) : DayLog :=
  { date := dateOf i,
    morning := { scheduled := "08:00",
                 taken := if i % 3 = 0 then none else some "08:15",
                 pillType := "pill_morning" },
    evening := { scheduled := "20:00",
                 taken := if i % 4 = 0 then none else some "20:30",
                 pillType := "pill_evening" } }

/-- generateMockAdherence from App.jsx: the loop runs i = 7 down to 1. -/
def generateMockAdherence (dateOf : Nat → String) : List DayLog :=
  [7, 6, 5, 4, 3, 2, 1].map (mockDay dateOf)

/-- loadLocalData from App.jsx: read the dosewise_data key; when present,
initialize the log and stats from it; when absent, install the demo mock
history with stats 5 / 47 / 50 and persist that snapshot immediately. -/
def loadLocalData (store : Store) (dateOf : Nat → String) :
    List DayLog × AdherenceStats × Store :=
  match store.dosewiseData with
  | some parsed =>
      (parsed.adherenceLog,
       { currentStreak := parsed.currentStreak,
         totalPillsTaken := parsed.totalPillsTaken,
         totalPillsScheduled := parsed.totalPillsScheduled },
       store)
  | none =>
      let mock := generateMockAdherence dateOf
      let doc : SavedDoc :=
        { adherenceLog := mock, currentStreak := 5,
          totalPillsTaken := 47, totalPillsScheduled := 50 }
      (mock,
       { currentStreak := 5, totalPillsTaken := 47, totalPillsScheduled := 50 },
       { store with dosewiseData := some doc })

/-- clearData from App.jsx: the confirmed reset removes only the
dosewise_data key and reloads the page; the dosewise_model_url key is not
touched. -/
def clearData (store : Store) : Store := { store with dosewiseData := none }

/-- The day condition written in the spec: at least one slot has a
non-null takenTimestamp. -/
def specDayTaken (d : DayLog) : Bool := d.morning.taken.isSome || d.evening.taken.isSome

/-- Well-formed taken value: null or a non-empty time string.  Every
taken value the program writes (toLocaleTimeString output, the mock
times 08:15 and 20:30) is non-empty. -/
def wfTaken : Option String → Bool
  | none => true
  | some t => !t.isEmpty

/-- Both slots of the day carry well-formed taken values. -/
def wfDay (d : DayLog) : Bool := wfTaken d.morning.taken && wfTaken d.evening.taken

/-- The streak as the spec words it: the length of the longest prefix of
the date-descending sort in which every day has at least one slot with a
non-null takenTimestamp. -/
def specStreak (logs : List DayLog) : Nat :=
  ((sortByDateDesc logs).takeWhile specDayTaken).length

/-- Scheduled time plus the fixed 15-minute grace period, as the spec
words it: morning 8:15, evening 20:15. -/
def specReminderTime : DoseType → Nat × Nat
  | DoseType.morning => (8, 15)
  | DoseType.evening => (20, 15)

/-- The reminder condition as the spec words it: today has no DayLog, or
the slot for the DoseType has a null takenTimestamp. -/
def slotNullToday (logs : List DayLog) (today : String) (ty : DoseType) : Prop :=
  match logs.find? (fun l => l.date == today) with
  | none => True
  | some l => (slotOf l ty).taken = none

/-- The detection-gate contract as the spec words it: `b` sits at some
index of `l`, its confidence is maximal, and every earlier candidate has
strictly smaller confidence (first-seen tie-break). -/
def IsFirstMax (l : List Prediction) (b : Prediction) : Prop :=
  ∃ i : Nat, l.get? i = some b ∧ (∀ q ∈ l, q.probability ≤ b.probability) ∧
    (∀ j, j < i → ∀ q, l.get? j = some q → q.probability < b.probability)

/-- Recursive description of the foldl maximum scan: the first-seen
candidate of maximal probability among `a` followed by the list. -/
def firstMaxNe (a : Prediction) : List Prediction → Prediction
  | [] => a
  | q :: rest =>
      if a.probability < (firstMaxNe q rest).probability then firstMaxNe q rest else a

/-- The three-day history of the spec example: taken, gap, taken, listed
most-recent first. -/
def exampleThreeLogs : List DayLog :=
  [ { date := "2024-01-03",
      morning := { scheduled := "08:00", taken := some "08:10", pillType := "pill_morning" },
      evening := { scheduled := "20:00", taken := none, pillType := "pill_evening" } },
    { date := "2024-01-02",
      morning := { scheduled := "08:00", taken := none, pillType := "pill_morning" },
      evening := { scheduled := "20:00", taken := none, pillType := "pill_evening" } },
    { date := "2024-01-01",
      morning := { scheduled := "08:00", taken := some "08:05", pillType := "pill_morning" },
      evening := { scheduled := "20:00", taken := none, pillType := "pill_evening" } } ]

/-- A store holding both persisted keys: a saved adherence document with
stats 2 / 3 / 4 and a classifier configuration URL. -/
def loadedStore : Store :=
  { dosewiseData := some ⟨[], 2, 3, 4⟩,
    dosewiseModelUrl := some "https://example.com/model/" }

/-- A fresh session with an empty ledger and zero stats. -/
def demoState : AppState :=
  { prediction := defaultBest, alert := none, adherenceLog := [],
    stats := { currentStreak := 0, totalPillsTaken := 0, totalPillsScheduled := 0 },
    store := { dosewiseData := none, dosewiseModelUrl := none } }

/-- A DayLog for 2024-01-02 whose morning dose is already recorded. -/
def takenMorningDay : DayLog :=
  { date := "2024-01-02",
    morning := { scheduled := "08:00", taken := some "08:15", pillType := "pill_morning" },
    evening := { scheduled := "20:00", taken := none, pillType := "pill_evening" } }

/-- A session whose only DayLog, for 2024-01-02, already has the morning
dose recorded at 08:15. -/
def takenMorningState : AppState :=
  { prediction := defaultBest, alert := none,
    adherenceLog := [takenMorningDay],
    stats := { currentStreak := 1, totalPillsTaken := 1, totalPillsScheduled := 2 },
    store := { dosewiseData := none, dosewiseModelUrl := none } }

/-- A well-formed taken value is truthy exactly when it is non-null. -/
theorem jsTruthy_eq_isSome (o : Option String) (h : wfTaken o = true) :
    jsTruthy o = o.isSome := by
  cases o with
  | none => rfl
  | some t =>
      simp only [wfTaken, Bool.not_eq_true'] at h
      simp [jsTruthy, h]

/-- On well-formed days the code day condition matches the spec one. -/
theorem dayTaken_eq_specDayTaken (d : DayLog) (h : wfDay d = true) :
    dayTaken d = specDayTaken d := by
  unfold wfDay at h
  rw [Bool.and_eq_true] at h
  unfold dayTaken specDayTaken
  rw [jsTruthy_eq_isSome _ h.1, jsTruthy_eq_isSome _ h.2]

/-- The streak walk counts the longest all-taken prefix. -/
theorem streakLoop_eq_takeWhile (l : List DayLog) (h : ∀ d ∈ l, wfDay d = true) :
    streakLoop l = (l.takeWhile specDayTaken).length := by
  induction l with
  | nil => rfl
  | cons d rest ih =>
      have hd : wfDay d = true := h d (List.mem_cons_self d rest)
      have hrest : ∀ x ∈ rest, wfDay x = true := fun x hx => h x (List.mem_cons_of_mem _ hx)
      rw [streakLoop, List.takeWhile_cons, dayTaken_eq_specDayTaken d hd]
      cases hspec : specDayTaken d with
      | false => simp [hspec]
      | true => simp [hspec, ih hrest]

/-- Insertion into the sorted list adds no new elements. -/
theorem mem_insertDesc {x d : DayLog} {l : List DayLog} (h : x ∈ insertDesc d l) :
    x = d ∨ x ∈ l := by
  induction l with
  | nil =>
      rw [insertDesc, List.mem_singleton] at h
      exact Or.inl h
  | cons e rest ih =>
      rw [insertDesc] at h
      by_cases hc : charListLt e.date.data d.date.data = true
      · rw [if_pos hc] at h
        rcases List.mem_cons.mp h with h1 | h1
        · exact Or.inl h1
        · exact Or.inr h1
      · rw [if_neg hc] at h
        rcases List.mem_cons.mp h with h1 | h1
        · exact Or.inr (List.mem_cons.mpr (Or.inl h1))
        · rcases ih h1 with h2 | h2
          · exact Or.inl h2
          · exact Or.inr (List.mem_cons_of_mem _ h2)

/-- Sorting adds no new elements. -/
theorem mem_sortByDateDesc {x : DayLog} {logs : List DayLog}
    (h : x ∈ sortByDateDesc logs) : x ∈ logs := by
  induction logs with
  | nil => exact absurd h (by simp [sortByDateDesc])
  | cons a rest ih =>
      have h' : x ∈ insertDesc a (sortByDateDesc rest) := h
      rcases mem_insertDesc h' with h1 | h1
      · exact h1 ▸ List.mem_cons_self a rest
      · exact List.mem_cons_of_mem _ (ih h1)

/-- C5: checkPillValidity is a pure function of label and hour: it is
valid with DoseType morning exactly for pill_morning during hours 7..9,
valid with evening exactly for pill_evening during hours 19..21, and any
other label is invalid with no DoseType at every hour. -/
theorem checkPillValidity_spec (label : String) (hour : Nat) :
    (checkPillValidity label hour = { isValid := true, ty := some DoseType.morning } ↔
      label = "pill_morning" ∧ 7 ≤ hour ∧ hour ≤ 9) ∧
    (checkPillValidity label hour = { isValid := true, ty := some DoseType.evening } ↔
      label = "pill_evening" ∧ 19 ≤ hour ∧ hour ≤ 21) ∧
    (label ≠ "pill_morning" → label ≠ "pill_evening" →
      checkPillValidity label hour = { isValid := false, ty := none }) := by
  unfold checkPillValidity
  by_cases hm : label = "pill_morning"
  · subst hm
    simp [PillValidity.mk.injEq]
  · by_cases he : label = "pill_evening"
    · subst he
      simp [PillValidity.mk.injEq]
    · simp [hm, he, PillValidity.mk.injEq]

/-- C5 witness: no_pill at hour 8 is invalid with no DoseType. -/
theorem checkPillValidity_spec_witness :
    checkPillValidity "no_pill" 8 = { isValid := false, ty := none } :=
  (checkPillValidity_spec "no_pill" 8).2.2 (by decide) (by decide)

/-- C2: when the winning detection of a tick has confidence at most 0.75,
runPrediction leaves the ledger, the stats and the persisted store
untouched: no DayLog entry is created or modified, totalPillsTaken is not
incremented and nothing is written to localStorage. -/
theorem runPrediction_subThreshold (s : AppState) (preds : List Prediction)
    (hour : Nat) (today takenTime : String)
    (h : (selectBest defaultBest preds).probability ≤ CONFIDENCE_THRESHOLD) :
    (runPrediction s preds hour today takenTime).adherenceLog = s.adherenceLog ∧
    (runPrediction s preds hour today takenTime).stats = s.stats ∧
    (runPrediction s preds hour today takenTime).store = s.store := by
  have hnot : ¬ (CONFIDENCE_THRESHOLD < (selectBest defaultBest preds).probability) :=
    not_lt.mpr h
  unfold runPrediction
  simp [hnot]

/-- C2 witness: a tick whose best candidate has confidence one half
changes neither ledger, stats nor store. -/
theorem runPrediction_subThreshold_witness :
    (runPrediction demoState [{ className := "pill_morning", probability := mkRat 1 2 }]
        8 "2024-01-05" "08:10").adherenceLog = demoState.adherenceLog ∧
    (runPrediction demoState [{ className := "pill_morning", probability := mkRat 1 2 }]
        8 "2024-01-05" "08:10").stats = demoState.stats ∧
    (runPrediction demoState [{ className := "pill_morning", probability := mkRat 1 2 }]
        8 "2024-01-05" "08:10").store = demoState.store :=
  runPrediction_subThreshold demoState
    [{ className := "pill_morning", probability := mkRat 1 2 }]
    8 "2024-01-05" "08:10" (by decide)

/-- C1 as stated is false on the code: clearData removes only the
dosewise_data key and leaves the classifier URL key in place, and the
restarted session reinitializes the stats to the demo values 5 / 47 / 50
rather than to all-zero. -/
theorem clearData_counterexample :
    ¬ (((clearData loadedStore).dosewiseModelUrl = none) ∧
        (loadLocalData (clearData loadedStore) (fun _ => "")).2.1 =
          { currentStreak := 0, totalPillsTaken := 0, totalPillsScheduled := 0 }) := by
  decide

/-- C1 amended: the reset command clears the adherence/stats key only and
leaves the classifier URL key unchanged; after the restart the session is
reinitialized with the generated mock history and stats currentStreak = 5,
totalTaken = 47, totalScheduled = 50. -/
theorem clearData_resets (store : Store) (dateOf : Nat → String) :
    (clearData store).dosewiseData = none ∧
    (clearData store).dosewiseModelUrl = store.dosewiseModelUrl ∧
    (loadLocalData (clearData store) dateOf).2.1 =
      { currentStreak := 5, totalPillsTaken := 47, totalPillsScheduled := 50 } ∧
    (loadLocalData (clearData store) dateOf).1 = generateMockAdherence dateOf := by
  refine ⟨rfl, rfl, ?_, ?_⟩ <;> simp [clearData, loadLocalData]

/-- C10: starting with no persisted adherence document installs the
generated 7-day mock history with stats currentStreak = 5,
totalPillsTaken = 47, totalPillsScheduled = 50, and persists that
snapshot to the dosewise_data key at once. -/
theorem loadLocalData_mock (store : Store) (dateOf : Nat → String)
    (h : store.dosewiseData = none) :
    (loadLocalData store dateOf).1 = generateMockAdherence dateOf ∧
    (loadLocalData store dateOf).2.1 =
      { currentStreak := 5, totalPillsTaken := 47, totalPillsScheduled := 50 } ∧
    (loadLocalData store dateOf).2.2.dosewiseData =
      some { adherenceLog := generateMockAdherence dateOf, currentStreak := 5,
             totalPillsTaken := 47, totalPillsScheduled := 50 } ∧
    (loadLocalData store dateOf).2.2.dosewiseModelUrl = store.dosewiseModelUrl ∧
    (generateMockAdherence dateOf).length = 7 := by
  refine ⟨?_, ?_, ?_, ?_, ?_⟩ <;> simp [loadLocalData, h, generateMockAdherence]

/-- C10 witness: loading an empty store installs and persists the mock
snapshot. -/
theorem loadLocalData_mock_witness :
    (loadLocalData { dosewiseData := none, dosewiseModelUrl := none } (fun _ => "")).1 =
      generateMockAdherence (fun _ => "") ∧
    (loadLocalData { dosewiseData := none, dosewiseModelUrl := none } (fun _ => "")).2.1 =
      { currentStreak := 5, totalPillsTaken := 47, totalPillsScheduled := 50 } ∧
    (loadLocalData { dosewiseData := none, dosewiseModelUrl := none }
        (fun _ => "")).2.2.dosewiseData =
      some { adherenceLog := generateMockAdherence (fun _ => ""), currentStreak := 5,
             totalPillsTaken := 47, totalPillsScheduled := 50 } ∧
    (loadLocalData { dosewiseData := none, dosewiseModelUrl := none }
        (fun _ => "")).2.2.dosewiseModelUrl =
      ({ dosewiseData := none, dosewiseModelUrl := none } : Store).dosewiseModelUrl ∧
    (generateMockAdherence (fun _ => "")).length = 7 :=
  loadLocalData_mock { dosewiseData := none, dosewiseModelUrl := none } (fun _ => "") rfl

/-- C4: calculateStreak equals the length of the longest prefix of the
date-descending sort in which every day has at least one slot with a
non-null takenTimestamp (for histories whose taken values are null or
non-empty strings, which covers everything the program writes), and on the
three-day example taken / gap / taken it returns 1. -/
theorem calculateStreak_spec :
    (∀ logs : List DayLog, (∀ d ∈ logs, wfDay d = true) →
      calculateStreak logs = specStreak logs) ∧
    calculateStreak exampleThreeLogs = 1 := by
  constructor
  · intro logs h
    unfold calculateStreak specStreak
    exact streakLoop_eq_takeWhile _ (fun d hd => h d (mem_sortByDateDesc hd))
  · decide

/-- C4 witness: the refinement applied to the concrete three-day example. -/
theorem calculateStreak_spec_witness :
    calculateStreak exampleThreeLogs = specStreak exampleThreeLogs ∧
    calculateStreak exampleThreeLogs = 1 :=
  ⟨calculateStreak_spec.1 exampleThreeLogs (by decide), calculateStreak_spec.2⟩

/-- setSlotTaken does not change the date. -/
theorem setSlotTaken_date (d : DayLog) (ty : DoseType) (t : String) :
    (setSlotTaken d ty t).date = d.date := by
  cases ty <;> rfl

/-- setSlotTaken writes the time into the selected slot. -/
theorem slotOf_setSlotTaken (d : DayLog) (ty : DoseType) (t : String) :
    (slotOf (setSlotTaken d ty t) ty).taken = some t := by
  cases ty <;> rfl

/-- A fresh day has the time in the selected slot. -/
theorem slotOf_newDay (today : String) (ty : DoseType) (p t : String) :
    (slotOf (newDay today ty p t) ty).taken = some t := by
  cases ty <;> simp [newDay, slotOf]

/-- Updating the first entry for today commutes with looking it up, when
the update preserves the date. -/
theorem find?_updateFirstDate (l : List DayLog) (today : String) (f : DayLog → DayLog)
    (hf : ∀ d, (f d).date = d.date) :
    (updateFirstDate l today f).find? (fun x => x.date == today) =
      (l.find? (fun x => x.date == today)).map f := by
  induction l with
  | nil => rfl
  | cons d rest ih =>
      rw [updateFirstDate]
      by_cases hd : d.date = today
      · rw [if_pos hd, List.find?_cons_of_pos _ (by simp [hf, hd]),
            List.find?_cons_of_pos _ (by simp [hd])]
        rfl
      · rw [if_neg hd, List.find?_cons_of_neg _ (by simp [hd]),
            List.find?_cons_of_neg _ (by simp [hd]), ih]

/-- Appending one element to a list in which the search fails finds the
new element exactly when it matches. -/
theorem find?_append_singleton (l : List DayLog) (x : DayLog) (p : DayLog → Bool)
    (h : l.find? p = none) :
    (l ++ [x]).find? p = if p x then some x else none := by
  induction l with
  | nil =>
      cases hx : p x
      · simp [List.find?, hx]
      · simp [List.find?, hx]
  | cons d rest ih =>
      cases hd : p d
      · rw [List.find?_cons_of_neg _ (by simp [hd])] at h
        rw [List.cons_append, List.find?_cons_of_neg _ (by simp [hd]), ih h]
      · rw [List.find?_cons_of_pos _ hd] at h
        cases h

/-- C3: recording a dose twice on the same day with the same valid
on-schedule DoseType-tagged label yields Accepted and then AlreadyTaken,
the second call changes nothing at all, the takenTimestamp written by the
first call survives unchanged, and totalPillsTaken grows exactly once. -/
theorem processSuccess_idempotent (s : AppState) (label : String) (ty : DoseType)
    (hour : Nat) (today t1 t2 : String)
    (hvalid : checkPillValidity label hour = { isValid := true, ty := some ty })
    (hfresh : ∀ e, s.adherenceLog.find? (fun l => l.date == today) = some e →
        jsTruthy (slotOf e ty).taken = false)
    (ht1 : t1.isEmpty = false) :
    (processSuccess s label ty today t1).1 = RecordOutcome.accepted ∧
    (processSuccess (processSuccess s label ty today t1).2 label ty today t2).1 =
      RecordOutcome.alreadyTaken ∧
    (processSuccess (processSuccess s label ty today t1).2 label ty today t2).2 =
      (processSuccess s label ty today t1).2 ∧
    (∃ e, (processSuccess s label ty today t1).2.adherenceLog.find?
        (fun l => l.date == today) = some e ∧ (slotOf e ty).taken = some t1) ∧
    (processSuccess s label ty today t1).2.stats.totalPillsTaken =
      s.stats.totalPillsTaken + 1 := by
  cases hfind : s.adherenceLog.find? (fun l => l.date == today) with
  | none =>
      have h1 : processSuccess s label ty today t1 =
          (RecordOutcome.accepted,
           commitDose s label (s.adherenceLog ++ [newDay today ty label t1])) := by
        simp only [processSuccess, hfind]
      have hlog : (commitDose s label
          (s.adherenceLog ++ [newDay today ty label t1])).adherenceLog =
          s.adherenceLog ++ [newDay today ty label t1] := rfl
      have hfind1 : (s.adherenceLog ++ [newDay today ty label t1]).find?
          (fun l => l.date == today) = some (newDay today ty label t1) := by
        rw [find?_append_singleton _ _ _ hfind]
        simp [newDay]
      have htruthy : jsTruthy (slotOf (newDay today ty label t1) ty).taken = true := by
        rw [slotOf_newDay]
        simp [jsTruthy, ht1]
      have h2 : processSuccess (commitDose s label
          (s.adherenceLog ++ [newDay today ty label t1])) label ty today t2 =
          (RecordOutcome.alreadyTaken,
           commitDose s label (s.adherenceLog ++ [newDay today ty label t1])) := by
        simp only [processSuccess, hlog, hfind1, htruthy, if_true]
      refine ⟨by rw [h1], ?_, ?_, ?_, ?_⟩
      · rw [h1, h2]
      · rw [h1, h2]
      · rw [h1]
        exact ⟨newDay today ty label t1, by rw [hlog, hfind1], slotOf_newDay _ _ _ _⟩
      · rw [h1]
        rfl
  | some e =>
      have htaken : jsTruthy (slotOf e ty).taken = false := hfresh e hfind
      have h1 : processSuccess s label ty today t1 =
          (RecordOutcome.accepted,
           commitDose s label
             (updateFirstDate s.adherenceLog today (fun d => setSlotTaken d ty t1))) := by
        simp only [processSuccess, hfind, htaken, Bool.false_eq_true, if_false]
      have hlog : (commitDose s label
          (updateFirstDate s.adherenceLog today (fun d => setSlotTaken d ty t1))).adherenceLog =
          updateFirstDate s.adherenceLog today (fun d => setSlotTaken d ty t1) := rfl
      have hfind1 : (updateFirstDate s.adherenceLog today
          (fun d => setSlotTaken d ty t1)).find? (fun l => l.date == today) =
          some (setSlotTaken e ty t1) := by
        rw [find?_updateFirstDate _ _ _ (fun d => setSlotTaken_date d ty t1), hfind]
        rfl
      have htruthy : jsTruthy (slotOf (setSlotTaken e ty t1) ty).taken = true := by
        rw [slotOf_setSlotTaken]
        simp [jsTruthy, ht1]
      have h2 : processSuccess (commitDose s label
          (updateFirstDate s.adherenceLog today (fun d => setSlotTaken d ty t1)))
          label ty today t2 =
          (RecordOutcome.alreadyTaken,
           commitDose s label
             (updateFirstDate s.adherenceLog today (fun d => setSlotTaken d ty t1))) := by
        simp only [processSuccess, hlog, hfind1, htruthy, if_true]
      refine ⟨by rw [h1], ?_, ?_, ?_, ?_⟩
      · rw [h1, h2]
      · rw [h1, h2]
      · rw [h1]
        exact ⟨setSlotTaken e ty t1, by rw [hlog, hfind1], slotOf_setSlotTaken _ _ _⟩
      · rw [h1]
        rfl

/-- C3 witness: recording pill_morning twice at hour 8 on a fresh day. -/
theorem processSuccess_idempotent_witness :
    (processSuccess demoState "pill_morning" DoseType.morning "2024-01-05" "08:10").1 =
      RecordOutcome.accepted ∧
    (processSuccess (processSuccess demoState "pill_morning" DoseType.morning
        "2024-01-05" "08:10").2 "pill_morning" DoseType.morning "2024-01-05" "09:00").1 =
      RecordOutcome.alreadyTaken ∧
    (processSuccess (processSuccess demoState "pill_morning" DoseType.morning
        "2024-01-05" "08:10").2 "pill_morning" DoseType.morning "2024-01-05" "09:00").2 =
      (processSuccess demoState "pill_morning" DoseType.morning "2024-01-05" "08:10").2 ∧
    (∃ e, (processSuccess demoState "pill_morning" DoseType.morning
        "2024-01-05" "08:10").2.adherenceLog.find?
        (fun l => l.date == "2024-01-05") = some e ∧
        (slotOf e DoseType.morning).taken = some "08:10") ∧
    (processSuccess demoState "pill_morning" DoseType.morning
        "2024-01-05" "08:10").2.stats.totalPillsTaken =
      demoState.stats.totalPillsTaken + 1 :=
  processSuccess_idempotent demoState "pill_morning" DoseType.morning 8
    "2024-01-05" "08:10" "09:00" (by decide)
    (by intro e h; simp [demoState] at h) (by decide)

/-- Folding one comparison into the running best commutes with the
recursive first-maximum description. -/
theorem firstMaxNe_step (rest : List Prediction) (a q : Prediction) :
    firstMaxNe (if a.probability < q.probability then q else a) rest =
      (if a.probability < (firstMaxNe q rest).probability then firstMaxNe q rest else a) := by
  cases rest with
  | nil =>
      by_cases h : a.probability < q.probability <;> simp [firstMaxNe, h]
  | cons r rs =>
      rw [firstMaxNe]
      rw [show firstMaxNe q (r :: rs) =
          (if q.probability < (firstMaxNe r rs).probability then firstMaxNe r rs else q)
        from rfl]
      by_cases h1 : q.probability < (firstMaxNe r rs).probability
      · rw [if_pos h1]
        by_cases h2 : a.probability < q.probability
        · rw [if_pos h2, if_pos h1, if_pos (lt_trans h2 h1)]
        · rw [if_neg h2]
      · rw [if_neg h1]
        by_cases h2 : a.probability < q.probability
        · rw [if_pos h2, if_neg h1]
        · have h3 : ¬ a.probability < (firstMaxNe r rs).probability := fun hc =>
            h2 (lt_of_lt_of_le hc (not_lt.mp h1))
          rw [if_neg h2, if_neg h3]

/-- The foldl maximum scan of runPrediction computes the first-seen
maximum of the sentinel followed by the candidates. -/
theorem selectBest_eq_firstMaxNe (l : List Prediction) :
    ∀ a : Prediction, selectBest a l = firstMaxNe a l := by
  induction l with
  | nil => intro a; rfl
  | cons q rest ih =>
      intro a
      rw [selectBest, List.foldl_cons]
      have step : List.foldl
          (fun best p => if best.probability < p.probability then p else best)
          (if a.probability < q.probability then q else a) rest =
          selectBest (if a.probability < q.probability then q else a) rest := rfl
      rw [step, ih, firstMaxNe_step]
      rfl

/-- The recursive first-maximum description satisfies the first-seen
maximum contract over the extended list. -/
theorem firstMaxNe_isFirstMax (l : List Prediction) :
    ∀ a : Prediction, IsFirstMax (a :: l) (firstMaxNe a l) := by
  induction l with
  | nil =>
      intro a
      refine ⟨0, rfl, ?_, ?_⟩
      · intro p hp
        rw [List.mem_singleton] at hp
        rw [hp, firstMaxNe]
      · intro j hj
        omega
  | cons q rest ih =>
      intro a
      obtain ⟨i, hget, hmax, hfirst⟩ := ih q
      rw [firstMaxNe]
      by_cases h : a.probability < (firstMaxNe q rest).probability
      · rw [if_pos h]
        refine ⟨i + 1, hget, ?_, ?_⟩
        · intro p hp
          rcases List.mem_cons.mp hp with h1 | h1
          · rw [h1]
            exact le_of_lt h
          · exact hmax p h1
        · intro j hj p hpj
          cases j with
          | zero =>
              have hpa : a = p := Option.some.inj hpj
              rw [← hpa]
              exact h
          | succ j' =>
              exact hfirst j' (Nat.lt_of_succ_lt_succ hj) p hpj
      · rw [if_neg h]
        refine ⟨0, rfl, ?_, ?_⟩
        · intro p hp
          rcases List.mem_cons.mp hp with h1 | h1
          · rw [h1]
          · exact le_trans (hmax p h1) (not_lt.mp h)
        · intro j hj
          omega

/-- C7 fails on the code as stated: on the non-empty candidate list
holding the single pair (pill_morning, 0) the gate keeps its sentinel
(no_pill, 0), which is not one of the input candidates. -/
theorem selectBest_counterexample :
    selectBest defaultBest [{ className := "pill_morning", probability := 0 }] ∉
      [({ className := "pill_morning", probability := 0 } : Prediction)] := by
  decide

/-- C7 amended: for every candidate list holding at least one pair of
positive confidence, the gate selects a pair that is among the input
candidates, has maximal confidence, and is the first-seen pair of that
confidence (stable tie-break). -/
theorem selectBest_spec (preds : List Prediction)
    (h : ∃ p ∈ preds, 0 < p.probability) :
    selectBest defaultBest preds ∈ preds ∧
    IsFirstMax preds (selectBest defaultBest preds) := by
  obtain ⟨p, hp, hppos⟩ := h
  rw [selectBest_eq_firstMaxNe]
  obtain ⟨i, hget, hmax, hfirst⟩ := firstMaxNe_isFirstMax preds defaultBest
  have hbpos : 0 < (firstMaxNe defaultBest preds).probability :=
    lt_of_lt_of_le hppos (hmax p (List.mem_cons_of_mem _ hp))
  cases i with
  | zero =>
      exfalso
      have hda : defaultBest = firstMaxNe defaultBest preds := Option.some.inj hget
      rw [← hda] at hbpos
      exact absurd hbpos (by simp [defaultBest])
  | succ i' =>
      have hget' : preds.get? i' = some (firstMaxNe defaultBest preds) := hget
      constructor
      · exact List.get?_mem hget'
      · refine ⟨i', hget', ?_, ?_⟩
        · intro q hq
          exact hmax q (List.mem_cons_of_mem _ hq)
        · intro j hj q hqj
          exact hfirst (j + 1) (Nat.succ_lt_succ hj) q hqj

/-- C7 witness: on the two-candidate list (no_pill 0.1, pill_morning 0.9)
the gate returns a member satisfying the first-seen maximum contract. -/
theorem selectBest_spec_witness :
    selectBest defaultBest
      [{ className := "no_pill", probability := mkRat 1 10 },
       { className := "pill_morning", probability := mkRat 9 10 }] ∈
      [({ className := "no_pill", probability := mkRat 1 10 } : Prediction),
       { className := "pill_morning", probability := mkRat 9 10 }] ∧
    IsFirstMax
      [{ className := "no_pill", probability := mkRat 1 10 },
       { className := "pill_morning", probability := mkRat 9 10 }]
      (selectBest defaultBest
        [{ className := "no_pill", probability := mkRat 1 10 },
         { className := "pill_morning", probability := mkRat 9 10 }]) :=
  selectBest_spec
    [{ className := "no_pill", probability := mkRat 1 10 },
     { className := "pill_morning", probability := mkRat 9 10 }]
    ⟨{ className := "pill_morning", probability := mkRat 9 10 }, by decide, by decide⟩

/-- Membership in a conditional singleton list. -/
theorem mem_if_singleton (c : Prop) [Decidable c] (x y : DoseType) :
    (x ∈ if c then [y] else []) ↔ c ∧ x = y := by
  by_cases h : c <;> simp [h]

/-- A well-formed day has well-formed slots. -/
theorem wfTaken_slotOf (l : DayLog) (ty : DoseType) (h : wfDay l = true) :
    wfTaken (slotOf l ty).taken = true := by
  unfold wfDay at h
  rw [Bool.and_eq_true] at h
  cases ty
  · exact h.1
  · exact h.2

/-- On a well-formed day the negated truthiness test of a slot is exactly
the null check the spec words use. -/
theorem slotUntaken_iff (l : DayLog) (ty : DoseType) (h : wfDay l = true) :
    ((!(jsTruthy (slotOf l ty).taken)) = true) ↔ (slotOf l ty).taken = none := by
  rw [Bool.not_eq_true', jsTruthy_eq_isSome _ (wfTaken_slotOf l ty h)]
  cases (slotOf l ty).taken <;> simp

/-- C8: the reminder sweep fires a notification for a DoseType exactly
when the current time equals that DoseType's scheduled time plus the
15-minute grace period (8:15 morning, 20:15 evening) and today's DayLog
slot for it is still null, or no DayLog exists for today; at any other
minute nothing fires. -/
theorem checkReminders_spec (logs : List DayLog) (today : String)
    (hour minute : Nat) (ty : DoseType)
    (hwf : ∀ d ∈ logs, wfDay d = true) :
    (ty ∈ checkReminders logs today hour minute ↔
      ((hour, minute) = specReminderTime ty ∧ slotNullToday logs today ty)) := by
  cases hfind : logs.find? (fun l => l.date == today) with
  | none =>
      simp only [checkReminders, slotNullToday, hfind]
      cases ty <;>
        simp [List.mem_append, mem_if_singleton, Prod.ext_iff, specReminderTime, and_assoc]
  | some l =>
      have hl : wfDay l = true := hwf l (List.mem_of_find?_eq_some hfind)
      simp only [checkReminders, slotNullToday, hfind]
      cases ty with
      | morning =>
          simp only [List.mem_append, mem_if_singleton, Prod.ext_iff, specReminderTime]
          constructor
          · intro hmem
            rcases hmem with ⟨⟨hh, hm, hu⟩, _⟩ | ⟨_, habs⟩
            · exact ⟨⟨hh, hm⟩, (slotUntaken_iff l DoseType.morning hl).mp hu⟩
            · exact absurd habs (by decide)
          · intro hx
            obtain ⟨⟨hh, hm⟩, hnull⟩ := hx
            exact Or.inl ⟨⟨hh, hm, (slotUntaken_iff l DoseType.morning hl).mpr hnull⟩, trivial⟩
      | evening =>
          simp only [List.mem_append, mem_if_singleton, Prod.ext_iff, specReminderTime]
          constructor
          · intro hmem
            rcases hmem with ⟨_, habs⟩ | ⟨⟨hh, hm, hu⟩, _⟩
            · exact absurd habs (by decide)
            · exact ⟨⟨hh, hm⟩, (slotUntaken_iff l DoseType.evening hl).mp hu⟩
          · intro hx
            obtain ⟨⟨hh, hm⟩, hnull⟩ := hx
            exact Or.inr ⟨⟨hh, hm, (slotUntaken_iff l DoseType.evening hl).mpr hnull⟩, trivial⟩

/-- C8 witness: at 20:15 with the evening slot still null the evening
reminder fires, by the iff applied at a concrete history. -/
theorem checkReminders_spec_witness :
    DoseType.evening ∈ checkReminders exampleThreeLogs "2024-01-03" 20 15 ↔
      ((20, 15) = specReminderTime DoseType.evening ∧
        slotNullToday exampleThreeLogs "2024-01-03" DoseType.evening) :=
  checkReminders_spec exampleThreeLogs "2024-01-03" 20 15 DoseType.evening (by decide)

/-- A label that checkPillValidity tags with a DoseType is one of the two
pill labels. -/
theorem doseLabel_of_checkPillValidity {label : String} {hour : Nat} {v : Bool}
    {ty : DoseType}
    (h : checkPillValidity label hour = { isValid := v, ty := some ty }) :
    label = "pill_morning" ∨ label = "pill_evening" := by
  by_cases hm : label = "pill_morning"
  · exact Or.inl hm
  · by_cases he : label = "pill_evening"
    · exact Or.inr he
    · exfalso
      unfold checkPillValidity at h
      simp [hm, he, PillValidity.mk.injEq] at h

/-- C9: a DoseType-tagged detection whose schedule check is invalid
leaves the ledger, the stats and the persisted store unchanged, yields
outcome NotScheduled, and the Warning alert supersedes the Info alert
exactly when the lowercased label contains the substring pill or med. -/
theorem handleDetection_notScheduled (s : AppState) (label : String) (c : ℚ)
    (hour : Nat) (today takenTime : String) (ty : DoseType)
    (hv : checkPillValidity label hour = { isValid := false, ty := some ty }) :
    (handleDetection s label c hour today takenTime).1 = RecordOutcome.notScheduled ∧
    (handleDetection s label c hour today takenTime).2.adherenceLog = s.adherenceLog ∧
    (handleDetection s label c hour today takenTime).2.stats = s.stats ∧
    (handleDetection s label c hour today takenTime).2.store = s.store ∧
    ((handleDetection s label c hour today takenTime).2.alert =
        some { kind := AlertKind.warning, message := warnMsg label } ↔
      (containsStr (lowerStr label) "pill" || containsStr (lowerStr label) "med") = true) := by
  rcases doseLabel_of_checkPillValidity hv with hm | hm
  · subst hm
    have hw : (containsStr (lowerStr "pill_morning") "pill" ||
        containsStr (lowerStr "pill_morning") "med") = true := by decide
    simp [handleDetection, hv, hw]
  · subst hm
    have hw : (containsStr (lowerStr "pill_evening") "pill" ||
        containsStr (lowerStr "pill_evening") "med") = true := by decide
    simp [handleDetection, hv, hw]

/-- C9 witness: pill_evening at hour 14 is not scheduled, mutates nothing
and supersedes the Info alert with a Warning. -/
theorem handleDetection_notScheduled_witness :
    (handleDetection demoState "pill_evening" (mkRat 9 10) 14 "2024-01-05" "14:00").1 =
      RecordOutcome.notScheduled ∧
    (handleDetection demoState "pill_evening" (mkRat 9 10) 14 "2024-01-05" "14:00").2.adherenceLog =
      demoState.adherenceLog ∧
    (handleDetection demoState "pill_evening" (mkRat 9 10) 14 "2024-01-05" "14:00").2.stats =
      demoState.stats ∧
    (handleDetection demoState "pill_evening" (mkRat 9 10) 14 "2024-01-05" "14:00").2.store =
      demoState.store ∧
    ((handleDetection demoState "pill_evening" (mkRat 9 10) 14 "2024-01-05" "14:00").2.alert =
        some { kind := AlertKind.warning, message := warnMsg "pill_evening" } ↔
      (containsStr (lowerStr "pill_evening") "pill" ||
        containsStr (lowerStr "pill_evening") "med") = true) :=
  handleDetection_notScheduled demoState "pill_evening" (mkRat 9 10) 14 "2024-01-05" "14:00"
    DoseType.evening (by decide)

/-- C6 fails on the code as stated: with the morning slot already taken,
a pill_morning detection at hour 12 (outside the acceptance window) does
not yield AlreadyTaken; the schedule check runs first, so the outcome is
NotScheduled and a Warning alert is emitted. -/
theorem handleDetection_counterexample :
    (handleDetection takenMorningState "pill_morning" (mkRat 9 10) 12
        "2024-01-02" "12:00").1 ≠ RecordOutcome.alreadyTaken ∧
    (handleDetection takenMorningState "pill_morning" (mkRat 9 10) 12
        "2024-01-02" "12:00").2.alert =
      some { kind := AlertKind.warning, message := warnMsg "pill_morning" } := by
  decide

/-- C6 amended: when the slot of the detected DoseType already has a
takenTimestamp today, processing mutates neither ledger, stats nor store;
when the current hour is inside the acceptance window the outcome is
AlreadyTaken and no alert beyond the initial Info is emitted, while
outside the window the schedule check fires first, giving NotScheduled
with a Warning alert. -/
theorem handleDetection_alreadyTaken (s : AppState) (label : String) (c : ℚ)
    (hour : Nat) (today takenTime : String) (v : Bool) (ty : DoseType) (e : DayLog)
    (hv : checkPillValidity label hour = { isValid := v, ty := some ty })
    (hfind : s.adherenceLog.find? (fun l => l.date == today) = some e)
    (htaken : jsTruthy (slotOf e ty).taken = true) :
    (handleDetection s label c hour today takenTime).2.adherenceLog = s.adherenceLog ∧
    (handleDetection s label c hour today takenTime).2.stats = s.stats ∧
    (handleDetection s label c hour today takenTime).2.store = s.store ∧
    (if v = true then
        (handleDetection s label c hour today takenTime).1 = RecordOutcome.alreadyTaken ∧
        (handleDetection s label c hour today takenTime).2.alert =
          some { kind := AlertKind.info, message := infoMsg label }
      else
        (handleDetection s label c hour today takenTime).1 = RecordOutcome.notScheduled ∧
        (handleDetection s label c hour today takenTime).2.alert =
          some { kind := AlertKind.warning, message := warnMsg label }) := by
  rcases doseLabel_of_checkPillValidity hv with hm | hm
  all_goals subst hm
  all_goals cases v
  · have hw : containsStr (lowerStr "pill_morning") "pill" = true := by decide
    simp [handleDetection, hv, hw]
  · simp [handleDetection, hv, processSuccess, hfind, htaken]
  · have hw : containsStr (lowerStr "pill_evening") "pill" = true := by decide
    simp [handleDetection, hv, hw]
  · simp [handleDetection, hv, processSuccess, hfind, htaken]

/-- C6 witness: pill_morning at hour 8 with the morning slot already
taken yields AlreadyTaken, keeps the Info alert, and mutates nothing. -/
theorem handleDetection_alreadyTaken_witness :
    (handleDetection takenMorningState "pill_morning" (mkRat 9 10) 8
        "2024-01-02" "08:30").2.adherenceLog = takenMorningState.adherenceLog ∧
    (handleDetection takenMorningState "pill_morning" (mkRat 9 10) 8
        "2024-01-02" "08:30").2.stats = takenMorningState.stats ∧
    (handleDetection takenMorningState "pill_morning" (mkRat 9 10) 8
        "2024-01-02" "08:30").2.store = takenMorningState.store ∧
    (if true = true then
        (handleDetection takenMorningState "pill_morning" (mkRat 9 10) 8
            "2024-01-02" "08:30").1 = RecordOutcome.alreadyTaken ∧
        (handleDetection takenMorningState "pill_morning" (mkRat 9 10) 8
            "2024-01-02" "08:30").2.alert =
          some { kind := AlertKind.info, message := infoMsg "pill_morning" }
      else
        (handleDetection takenMorningState "pill_morning" (mkRat 9 10) 8
            "2024-01-02" "08:30").1 = RecordOutcome.notScheduled ∧
        (handleDetection takenMorningState "pill_morning" (mkRat 9 10) 8
            "2024-01-02" "08:30").2.alert =
          some { kind := AlertKind.warning, message := warnMsg "pill_morning" }) :=
  handleDetection_alreadyTaken takenMorningState "pill_morning" (mkRat 9 10) 8
    "2024-01-02" "08:30" true DoseType.morning takenMorningDay
    (by decide) (by decide) (by decide)
